import Mathlib

/-!
Verification of the scroll/dimension collector of `react-viewport-utils`
(`src/lib/ViewportCollector.tsx`).

The scroll sampler, the dimension sampler and the frame-synchronized
publication scheduler are embedded shallowly: scroll coordinates are
integers, the mutable component fields become an explicit state record,
and the per-frame tick becomes a state-transforming function that also
returns the list of immediate-callback invocations it performs.
-/

/-- Scroll state record (`IScroll` in the source): raw coordinates,
direction flags, turn coordinates and deltas since the last turn. -/
structure IScroll where
  x : Int
  y : Int
  isScrollingUp : Bool
  isScrollingDown : Bool
  isScrollingLeft : Bool
  isScrollingRight : Bool
  xTurn : Int
  yTurn : Int
  xDTurn : Int
  yDTurn : Int
deriving Repr, DecidableEq

/-- Dimension state record (`IDimensions` in the source). -/
structure IDimensions where
  width : Int
  height : Int
  clientWidth : Int
  clientHeight : Int
  outerWidth : Int
  outerHeight : Int
  documentWidth : Int
  documentHeight : Int
deriving Repr, DecidableEq

/-- `isScrollingLeft` from the source, with the `switch (true)` cascade kept
verbatim: the three comparison cases, then the `default` branch that throws
`Error('Could not calculate isScrollingLeft')`, embedded as `Except`. -/
def isScrollingLeft (x : Int) (prev : IScroll) : Except String Bool :=
  if x < prev.x then Except.ok true
  else if x > prev.x then Except.ok false
  else if x = prev.x then Except.ok prev.isScrollingLeft
  else Except.error "Could not calculate isScrollingLeft"

/-- `isScrollingUp` from the source, switch cascade kept verbatim
(the thrown message in the source is `Could not calculate yDir`). -/
def isScrollingUp (y : Int) (prev : IScroll) : Except String Bool :=
  if y < prev.y then Except.ok true
  else if y > prev.y then Except.ok false
  else if y = prev.y then Except.ok prev.isScrollingUp
  else Except.error "Could not calculate yDir"

/-- Total form of `isScrollingLeft`: the error branch is unreachable for
integers (proved below), so the cascade collapses to three cases. -/
def isScrollingLeftTotal (x : Int) (prev : IScroll) : Bool :=
  if x < prev.x then true
  else if x > prev.x then false
  else prev.isScrollingLeft

/-- Total form of `isScrollingUp`. -/
def isScrollingUpTotal (y : Int) (prev : IScroll) : Bool :=
  if y < prev.y then true
  else if y > prev.y then false
  else prev.isScrollingUp

theorem isScrollingLeft_eq_ok (x : Int) (prev : IScroll) :
    isScrollingLeft x prev = Except.ok (isScrollingLeftTotal x prev) := by
  unfold isScrollingLeft isScrollingLeftTotal
  rcases lt_trichotomy x prev.x with h | h | h
  · simp [h]
  · simp [h]
  · simp [h, not_lt_of_gt h, lt_asymm h]

theorem isScrollingUp_eq_ok (y : Int) (prev : IScroll) :
    isScrollingUp y prev = Except.ok (isScrollingUpTotal y prev) := by
  unfold isScrollingUp isScrollingUpTotal
  rcases lt_trichotomy y prev.y with h | h | h
  · simp [h]
  · simp [h]
  · simp [h, not_lt_of_gt h, lt_asymm h]

/-- `createInitScrollState` from the source. -/
def createInitScrollState : IScroll :=
  { x := 0
    y := 0
    isScrollingUp := false
    isScrollingDown := false
    isScrollingLeft := false
    isScrollingRight := false
    xTurn := 0
    yTurn := 0
    xDTurn := 0
    yDTurn := 0 }

/-- `handleScroll` from the source, as a function on the scroll state.
Each `let` mirrors one mutation of `this.scrollState`, in source order;
`isScrollingUp` is applied to the state that already holds the new
left/right flags, exactly as in the source (it only reads `y` and the
previous `isScrollingUp`, which are untouched at that point). The
comparison helpers are used in their total form, justified by
`isScrollingLeft_eq_ok` / `isScrollingUp_eq_ok`. -/
def handleScroll (x y : Int) (s : IScroll) : IScroll :=
  let prevIsScrollingLeft := s.isScrollingLeft
  let prevIsScrollingUp := s.isScrollingUp
  let prevXTurn := s.xTurn
  let prevYTurn := s.yTurn
  let s1 := { s with isScrollingLeft := isScrollingLeftTotal x s }
  let s2 := { s1 with isScrollingRight := !s1.isScrollingLeft }
  let s3 := { s2 with isScrollingUp := isScrollingUpTotal y s2 }
  let s4 := { s3 with isScrollingDown := !s3.isScrollingUp }
  let s5 := { s4 with
    xTurn := if s4.isScrollingLeft == prevIsScrollingLeft then prevXTurn else x }
  let s6 := { s5 with
    yTurn := if s5.isScrollingUp == prevIsScrollingUp then prevYTurn else y }
  let s7 := { s6 with xDTurn := x - s6.xTurn }
  let s8 := { s7 with yDTurn := y - s7.yTurn }
  let s9 := { s8 with x := x }
  { s9 with y := y }

/-- A sequence of scroll samples applied from the initial scroll state. -/
def applyScrollSamples (l : List (Int × Int)) : IScroll :=
  l.foldl (fun s p => handleScroll p.1 p.2 s) createInitScrollState

/-- Field-level description of `handleScroll`, used by several proofs. -/
theorem handleScroll_fields (x y : Int) (s : IScroll) :
    handleScroll x y s =
      { x := x
        y := y
        isScrollingUp := isScrollingUpTotal y s
        isScrollingDown := !isScrollingUpTotal y s
        isScrollingLeft := isScrollingLeftTotal x s
        isScrollingRight := !isScrollingLeftTotal x s
        xTurn := if isScrollingLeftTotal x s == s.isScrollingLeft then s.xTurn else x
        yTurn := if isScrollingUpTotal y s == s.isScrollingUp then s.yTurn else y
        xDTurn := x - (if isScrollingLeftTotal x s == s.isScrollingLeft then s.xTurn else x)
        yDTurn := y - (if isScrollingUpTotal y s == s.isScrollingUp then s.yTurn else y) } := by
  unfold handleScroll
  have hup : isScrollingUpTotal y { s with
      isScrollingLeft := isScrollingLeftTotal x s
      isScrollingRight := !isScrollingLeftTotal x s } = isScrollingUpTotal y s := by
    unfold isScrollingUpTotal
    rfl
  simp only [hup]

/-- The invariant established by every `handleScroll` call: the down/right
flags are the negations of the up/left flags, and each delta-since-turn is
the committed coordinate minus the turn coordinate. -/
def ScrollInv (s : IScroll) : Prop :=
  s.isScrollingDown = !s.isScrollingUp ∧
  s.isScrollingRight = !s.isScrollingLeft ∧
  s.xDTurn = s.x - s.xTurn ∧
  s.yDTurn = s.y - s.yTurn

theorem handleScroll_scrollInv (x y : Int) (s : IScroll) :
    ScrollInv (handleScroll x y s) := by
  rw [handleScroll_fields]
  exact ⟨rfl, rfl, rfl, rfl⟩

theorem scrollInv_foldl (t : List (Int × Int)) (s : IScroll) (h : ScrollInv s) :
    ScrollInv (t.foldl (fun s p => handleScroll p.1 p.2 s) s) := by
  induction t generalizing s with
  | nil => exact h
  | cons a t ih => exact ih _ (handleScroll_scrollInv a.1 a.2 s)

theorem scrollInv_applyScrollSamples (l : List (Int × Int)) (hl : l ≠ []) :
    ScrollInv (applyScrollSamples l) := by
  cases l with
  | nil => exact absurd rfl hl
  | cons a t =>
    unfold applyScrollSamples
    rw [List.foldl_cons]
    exact scrollInv_foldl t _ (handleScroll_scrollInv a.1 a.2 createInitScrollState)

theorem scrollInv_fixed (s : IScroll) (h : ScrollInv s) :
    handleScroll s.x s.y s = s := by
  obtain ⟨hd, hr, hx, hy⟩ := h
  have hl : isScrollingLeftTotal s.x s = s.isScrollingLeft := by
    unfold isScrollingLeftTotal
    simp
  have hu : isScrollingUpTotal s.y s = s.isScrollingUp := by
    unfold isScrollingUpTotal
    simp
  rw [handleScroll_fields, hl, hu]
  cases s
  simp_all

/-- C7: from the initial scroll state (x=y=0, all four direction flags
false, turns and deltas 0), the first sample (0, 50) yields
isScrollingUp = false, yTurn = 0 and yDTurn = 50. -/
theorem claim_C7_first_sample :
    createInitScrollState.x = 0 ∧ createInitScrollState.y = 0 ∧
    createInitScrollState.isScrollingUp = false ∧
    createInitScrollState.isScrollingDown = false ∧
    createInitScrollState.isScrollingLeft = false ∧
    createInitScrollState.isScrollingRight = false ∧
    createInitScrollState.xTurn = 0 ∧ createInitScrollState.yTurn = 0 ∧
    createInitScrollState.xDTurn = 0 ∧ createInitScrollState.yDTurn = 0 ∧
    (handleScroll 0 50 createInitScrollState).isScrollingUp = false ∧
    (handleScroll 0 50 createInitScrollState).yTurn = 0 ∧
    (handleScroll 0 50 createInitScrollState).yDTurn = 50 := by
  decide

/-- C10: for integer coordinates exactly one of the three switch cases
(less, greater, equal) applies, so `isScrollingLeft` and `isScrollingUp`
always return `ok` and the throwing default branch is unreachable. -/
theorem claim_C10_no_throw (x y : Int) (s : IScroll) :
    ((x < s.x ∧ ¬x > s.x ∧ x ≠ s.x) ∨ (¬x < s.x ∧ x > s.x ∧ x ≠ s.x) ∨
      (¬x < s.x ∧ ¬x > s.x ∧ x = s.x)) ∧
    ((y < s.y ∧ ¬y > s.y ∧ y ≠ s.y) ∨ (¬y < s.y ∧ y > s.y ∧ y ≠ s.y) ∨
      (¬y < s.y ∧ ¬y > s.y ∧ y = s.y)) ∧
    isScrollingLeft x s = Except.ok (isScrollingLeftTotal x s) ∧
    isScrollingUp y s = Except.ok (isScrollingUpTotal y s) :=
  ⟨by omega, by omega, isScrollingLeft_eq_ok x s, isScrollingUp_eq_ok y s⟩

/-- C2: each sample updates xTurn/yTurn by the keep-on-same-flag,
reset-to-raw-on-flip rule, computes the deltas against the just-updated
turn coordinates, and commits x and y. -/
theorem claim_C2_sample_update (x y : Int) (s : IScroll) :
    (handleScroll x y s).xTurn =
      (if (handleScroll x y s).isScrollingLeft = s.isScrollingLeft
        then s.xTurn else x) ∧
    (handleScroll x y s).yTurn =
      (if (handleScroll x y s).isScrollingUp = s.isScrollingUp
        then s.yTurn else y) ∧
    (handleScroll x y s).xDTurn = x - (handleScroll x y s).xTurn ∧
    (handleScroll x y s).yDTurn = y - (handleScroll x y s).yTurn ∧
    (handleScroll x y s).x = x ∧ (handleScroll x y s).y = y := by
  rw [handleScroll_fields]
  simp

/-- C3: on the sample where a direction flag flips, the corresponding turn
coordinate is set to the NEW raw position, so the corresponding
delta-since-turn is exactly 0 on that sample. -/
theorem claim_C3_turn_is_new_position (x y : Int) (s : IScroll) :
    ((handleScroll x y s).isScrollingLeft ≠ s.isScrollingLeft →
      (handleScroll x y s).xTurn = x ∧ (handleScroll x y s).xDTurn = 0) ∧
    ((handleScroll x y s).isScrollingUp ≠ s.isScrollingUp →
      (handleScroll x y s).yTurn = y ∧ (handleScroll x y s).yDTurn = 0) := by
  rw [handleScroll_fields]
  simp only [beq_iff_eq]
  refine ⟨fun h => ⟨?_, ?_⟩, fun h => ⟨?_, ?_⟩⟩
  · show (if isScrollingLeftTotal x s = s.isScrollingLeft then s.xTurn else x) = x
    exact if_neg h
  · show (x - if isScrollingLeftTotal x s = s.isScrollingLeft then s.xTurn else x) = 0
    rw [if_neg h, sub_self]
  · show (if isScrollingUpTotal y s = s.isScrollingUp then s.yTurn else y) = y
    exact if_neg h
  · show (y - if isScrollingUpTotal y s = s.isScrollingUp then s.yTurn else y) = 0
    rw [if_neg h, sub_self]

theorem claim_C3_witness :
    (handleScroll (-1) (-1) createInitScrollState).xTurn = -1 ∧
    (handleScroll (-1) (-1) createInitScrollState).xDTurn = 0 ∧
    (handleScroll (-1) (-1) createInitScrollState).yTurn = -1 ∧
    (handleScroll (-1) (-1) createInitScrollState).yDTurn = 0 := by
  have h := claim_C3_turn_is_new_position (-1) (-1) createInitScrollState
  have h1 := h.1 (by decide)
  have h2 := h.2 (by decide)
  exact ⟨h1.1, h1.2, h2.1, h2.2⟩

/-- C4: along every sample sequence from the initial state, at most one of
up/down and at most one of left/right is true, and after at least one
sample each down/right flag is the negation of its up/left partner (so
exactly one of each pair holds). -/
theorem claim_C4_mutual_exclusion (l : List (Int × Int)) :
    (¬((applyScrollSamples l).isScrollingUp = true ∧
        (applyScrollSamples l).isScrollingDown = true)) ∧
    (¬((applyScrollSamples l).isScrollingLeft = true ∧
        (applyScrollSamples l).isScrollingRight = true)) ∧
    (l ≠ [] →
      (applyScrollSamples l).isScrollingDown =
        !(applyScrollSamples l).isScrollingUp ∧
      (applyScrollSamples l).isScrollingRight =
        !(applyScrollSamples l).isScrollingLeft) := by
  cases l with
  | nil =>
    refine ⟨by decide, by decide, fun h => absurd rfl h⟩
  | cons a t =>
    obtain ⟨hd, hr, -, -⟩ := scrollInv_applyScrollSamples (a :: t) (by simp)
    refine ⟨?_, ?_, fun _ => ⟨hd, hr⟩⟩
    · rintro ⟨hu, hdn⟩
      rw [hu] at hd
      rw [hdn] at hd
      exact Bool.true_eq_false.mp hd
    · rintro ⟨hlf, hrt⟩
      rw [hlf] at hr
      rw [hrt] at hr
      exact Bool.true_eq_false.mp hr

theorem claim_C4_witness :
    ([((0 : Int), (50 : Int))] ≠ []) ∧
    (applyScrollSamples [(0, 50)]).isScrollingDown =
      !(applyScrollSamples [(0, 50)]).isScrollingUp ∧
    (applyScrollSamples [(0, 50)]).isScrollingRight =
      !(applyScrollSamples [(0, 50)]).isScrollingLeft := by
  refine ⟨by decide, ?_⟩
  exact (claim_C4_mutual_exclusion [(0, 50)]).2.2 (by decide)

/-- C6: in any state reached by at least one sample, a further sample at
the currently stored coordinates changes nothing: no direction flag flips
and no turn coordinate or delta moves. -/
theorem claim_C6_zero_delta_fixed (l : List (Int × Int)) (hl : l ≠ []) :
    handleScroll (applyScrollSamples l).x (applyScrollSamples l).y
        (applyScrollSamples l) =
      applyScrollSamples l :=
  scrollInv_fixed _ (scrollInv_applyScrollSamples l hl)

theorem claim_C6_witness :
    ([((3 : Int), (4 : Int))] ≠ []) ∧
    handleScroll (applyScrollSamples [(3, 4)]).x (applyScrollSamples [(3, 4)]).y
        (applyScrollSamples [(3, 4)]) =
      applyScrollSamples [(3, 4)] :=
  ⟨by decide, claim_C6_zero_delta_fixed [(3, 4)] (by decide)⟩

/-- C1 as stated is false on the code: after scrolling down to y=50, the
sample y=30 flips isScrollingUp to true, but yTurn becomes 30 (the new
position, not 50) and yDTurn becomes 0 (not -20). -/
theorem claim_C1_counterexample :
    (applyScrollSamples [(0, 50)]).y = 50 ∧
    (applyScrollSamples [(0, 50)]).isScrollingUp = false ∧
    (applyScrollSamples [(0, 50)]).isScrollingDown = true ∧
    (handleScroll 0 30 (applyScrollSamples [(0, 50)])).isScrollingUp = true ∧
    ¬((handleScroll 0 30 (applyScrollSamples [(0, 50)])).yTurn = 50 ∧
      (handleScroll 0 30 (applyScrollSamples [(0, 50)])).yDTurn = -20) := by
  decide

/-- C1 amended: from any state with committed y=50 while scrolling down,
the sample y=30 yields isScrollingUp=true, yTurn=30 (the new sample
position where the flip is observed) and yDTurn=0. -/
theorem claim_C1_amended_turn_down_to_up (x : Int) (s : IScroll)
    (hy : s.y = 50) (hup : s.isScrollingUp = false) :
    (handleScroll x 30 s).isScrollingUp = true ∧
    (handleScroll x 30 s).yTurn = 30 ∧
    (handleScroll x 30 s).yDTurn = 0 := by
  have h : isScrollingUpTotal 30 s = true := by
    unfold isScrollingUpTotal
    rw [hy]
    norm_num
  rw [handleScroll_fields]
  simp [h, hup]

theorem claim_C1_amended_witness :
    (handleScroll 0 30 (applyScrollSamples [(0, 50)])).isScrollingUp = true ∧
    (handleScroll 0 30 (applyScrollSamples [(0, 50)])).yTurn = 30 ∧
    (handleScroll 0 30 (applyScrollSamples [(0, 50)])).yDTurn = 0 :=
  claim_C1_amended_turn_down_to_up 0 (applyScrollSamples [(0, 50)])
    (by decide) (by decide)

/-- The window geometry read by `getClientDimensions`. -/
structure WindowGeom where
  innerWidth : Int
  innerHeight : Int
  outerWidth : Int
  outerHeight : Int
deriving Repr, DecidableEq

/-- The `document.documentElement` geometry read by `getClientDimensions`. -/
structure DocElemGeom where
  clientWidth : Int
  clientHeight : Int
  scrollWidth : Int
  scrollHeight : Int
  offsetWidth : Int
  offsetHeight : Int
deriving Repr, DecidableEq

/-- `createEmptyDimensionState` from the source: all fields zero. -/
def createEmptyDimensionState : IDimensions :=
  { width := 0
    height := 0
    clientWidth := 0
    clientHeight := 0
    outerWidth := 0
    outerHeight := 0
    documentWidth := 0
    documentHeight := 0 }

/-- `getClientDimensions` from the source. The guard
`!document || !document.documentElement` is modelled by an `Option` on the
document-element geometry; when it is absent the empty state is returned,
otherwise the window and document metrics are assembled, with
`documentWidth`/`documentHeight` the max of scroll/offset/client extents. -/
def getClientDimensions (window : WindowGeom)
    (documentElement : Option DocElemGeom) : IDimensions :=
  match documentElement with
  | none => createEmptyDimensionState
  | some d =>
    { width := window.innerWidth
      height := window.innerHeight
      clientWidth := d.clientWidth
      clientHeight := d.clientHeight
      outerWidth := window.outerWidth
      outerHeight := window.outerHeight
      documentWidth := max d.scrollWidth (max d.offsetWidth d.clientWidth)
      documentHeight := max d.scrollHeight (max d.offsetHeight d.clientHeight) }

/-- `createInitDimensionsState` from the source: the guard
`typeof window === 'undefined'` is modelled by an `Option` on the whole
environment (window geometry together with the optional document element). -/
def createInitDimensionsState
    (env : Option (WindowGeom × Option DocElemGeom)) : IDimensions :=
  match env with
  | none => createEmptyDimensionState
  | some (w, d) => getClientDimensions w d

/-- C9: outside a browser environment dimension sampling cannot fail:
without a window, `createInitDimensionsState` is the all-zero state, and
without a document element `getClientDimensions` is the all-zero state for
every window geometry. -/
theorem claim_C9_environment_absent :
    createInitDimensionsState none = createEmptyDimensionState ∧
    createEmptyDimensionState.width = 0 ∧
    createEmptyDimensionState.height = 0 ∧
    createEmptyDimensionState.clientWidth = 0 ∧
    createEmptyDimensionState.clientHeight = 0 ∧
    createEmptyDimensionState.outerWidth = 0 ∧
    createEmptyDimensionState.outerHeight = 0 ∧
    createEmptyDimensionState.documentWidth = 0 ∧
    createEmptyDimensionState.documentHeight = 0 ∧
    ∀ w : WindowGeom, getClientDimensions w none = createEmptyDimensionState :=
  ⟨rfl, rfl, rfl, rfl, rfl, rfl, rfl, rfl, rfl, fun _ => rfl⟩

/-- Modelled from the spec: `shallowEqualScroll` lives in `src/lib/utils`,
which is not present under `src/`; the spec describes it as field-wise
shallow comparison of scroll states. -/
def shallowEqualScroll (a b : IScroll) : Bool :=
  a.x == b.x && a.y == b.y &&
  a.isScrollingUp == b.isScrollingUp && a.isScrollingDown == b.isScrollingDown &&
  a.isScrollingLeft == b.isScrollingLeft && a.isScrollingRight == b.isScrollingRight &&
  a.xTurn == b.xTurn && a.yTurn == b.yTurn &&
  a.xDTurn == b.xDTurn && a.yDTurn == b.yDTurn

/-- Modelled from the spec: `shallowEqualDimensions` lives in
`src/lib/utils`, which is not present under `src/`; the spec describes it
as field-wise shallow comparison of dimension states. -/
def shallowEqualDimensions (a b : IDimensions) : Bool :=
  a.width == b.width && a.height == b.height &&
  a.clientWidth == b.clientWidth && a.clientHeight == b.clientHeight &&
  a.outerWidth == b.outerWidth && a.outerHeight == b.outerHeight &&
  a.documentWidth == b.documentWidth && a.documentHeight == b.documentHeight

theorem shallowEqualScroll_iff (a b : IScroll) :
    shallowEqualScroll a b = true ↔ a = b := by
  cases a
  cases b
  simp [shallowEqualScroll, and_assoc]

theorem shallowEqualDimensions_iff (a b : IDimensions) :
    shallowEqualDimensions a b = true ↔ a = b := by
  cases a
  cases b
  simp [shallowEqualDimensions, and_assoc]

/-- A reference to an allocated object: the allocation id models JavaScript
object identity, so that reuse of the previous copy versus allocation of a
fresh copy is observable in the embedding. -/
structure Ref (α : Type) where
  id : Nat
  val : α
deriving Repr, DecidableEq

/-- The last-call cache of the `memoize-one` wrapper used by the source for
`getPublicScroll`/`getPublicDimensions`: the argument and the result object
of the most recent call, plus a counter supplying fresh allocation ids. -/
structure MemoCache (α : Type) where
  entry : Option (α × Ref α)
  nextId : Nat
deriving Repr, DecidableEq

/-- One call of a `memoize-one`-wrapped copy function `a => ({ ...a })`
with custom equality `eq`: when the cached argument is `eq`-equal to the
new one, the cached result object is returned unchanged and nothing is
allocated; otherwise a fresh copy of the argument is allocated and cached. -/
def callMemoizedCopy {α : Type} (eq : α → α → Bool) (m : MemoCache α)
    (a : α) : Ref α × MemoCache α :=
  match m.entry with
  | some (la, lr) =>
    if eq a la then (lr, m)
    else (⟨m.nextId, a⟩, { entry := some (a, ⟨m.nextId, a⟩), nextId := m.nextId + 1 })
  | none => (⟨m.nextId, a⟩, { entry := some (a, ⟨m.nextId, a⟩), nextId := m.nextId + 1 })

/-- `getPublicScroll` from the source:
`memoize((scroll) => ({ ...scroll }), shallowEqualScroll)`. -/
def getPublicScroll (m : MemoCache IScroll) (scroll : IScroll) :
    Ref IScroll × MemoCache IScroll :=
  callMemoizedCopy shallowEqualScroll m scroll

/-- `getPublicDimensions` from the source:
`memoize((dimensions) => ({ ...dimensions }), shallowEqualDimensions)`. -/
def getPublicDimensions (m : MemoCache IDimensions) (dimensions : IDimensions) :
    Ref IDimensions × MemoCache IDimensions :=
  callMemoizedCopy shallowEqualDimensions m dimensions

/-- The cached result object of a memoized copy is a copy of the cached
argument (true of every cache the collector ever builds). -/
def MemoCopyInv {α : Type} (m : MemoCache α) : Prop :=
  ∀ a r, m.entry = some (a, r) → r.val = a

theorem callMemoizedCopy_val {α : Type} (eq : α → α → Bool)
    (heq : ∀ x y : α, eq x y = true → x = y)
    (m : MemoCache α) (hm : MemoCopyInv m) (a : α) :
    ((callMemoizedCopy eq m a).1).val = a := by
  unfold callMemoizedCopy
  split
  · next la lr hentry =>
    split
    · next h =>
      rw [hm la lr hentry]
      exact (heq a la h).symm
    · next h => rfl
  · next hentry => rfl

theorem callMemoizedCopy_entry {α : Type} (eq : α → α → Bool)
    (heq_refl : ∀ x : α, eq x x = true) (m : MemoCache α) (a : α) :
    ∃ la lr, ((callMemoizedCopy eq m a).2).entry = some (la, lr) ∧
      eq a la = true ∧ (callMemoizedCopy eq m a).1 = lr := by
  unfold callMemoizedCopy
  split
  · next la lr hentry =>
    split
    · next h => exact ⟨la, lr, hentry, h, rfl⟩
    · next h => exact ⟨a, ⟨m.nextId, a⟩, rfl, heq_refl a, rfl⟩
  · next hentry => exact ⟨a, ⟨m.nextId, a⟩, rfl, heq_refl a, rfl⟩

theorem callMemoizedCopy_hit {α : Type} (eq : α → α → Bool)
    (m : MemoCache α) (la : α) (lr : Ref α) (hme : m.entry = some (la, lr))
    (a : α) (h : eq a la = true) :
    callMemoizedCopy eq m a = (lr, m) := by
  unfold callMemoizedCopy
  split
  · next la2 lr2 hentry2 =>
    rw [hme] at hentry2
    simp only [Option.some.injEq, Prod.mk.injEq] at hentry2
    obtain ⟨rfl, rfl⟩ := hentry2
    rw [if_pos h]
  · next hentry2 =>
    rw [hme] at hentry2
    exact Option.noConfusion hentry2

theorem callMemoizedCopy_second {α : Type} (eq : α → α → Bool)
    (heq : ∀ x y : α, eq x y = true ↔ x = y)
    (m : MemoCache α) (a1 a2 : α) (h : eq a2 a1 = true) :
    callMemoizedCopy eq (callMemoizedCopy eq m a1).2 a2 =
      ((callMemoizedCopy eq m a1).1, (callMemoizedCopy eq m a1).2) := by
  obtain ⟨la, lr, hentry, hla, hres⟩ :=
    callMemoizedCopy_entry eq (fun x => (heq x x).mpr rfl) m a1
  have ha : a2 = a1 := (heq a2 a1).mp h
  have h2 : eq a2 la = true := by
    rw [ha, hla]
  rw [callMemoizedCopy_hit eq _ la lr hentry a2 h2, hres]

/-- Public snapshot handed to consumers (`IViewport` in the source):
references to the published scroll and dimension copies. -/
structure IViewport where
  scroll : Ref IScroll
  dimensions : Ref IDimensions
deriving Repr, DecidableEq

/-- The second argument of the update callbacks. -/
structure UpdateFlags where
  scrollDidUpdate : Bool
  dimensionsDidUpdate : Bool
deriving Repr, DecidableEq

/-- One invocation of the immediate `onUpdate` callback: the snapshot and
flags it receives. -/
structure UpdateEvent where
  snapshot : IViewport
  flags : UpdateFlags
deriving Repr, DecidableEq

/-- The mutable fields of the `ViewportCollector` component, together with
the `memoize-one` caches of `getPublicScroll`/`getPublicDimensions`. -/
structure CollectorState where
  scrollState : IScroll
  dimensionsState : IDimensions
  lastSyncedScrollState : IScroll
  lastSyncedDimensionsState : IDimensions
  componentMightHaveUpdated : Bool
  memoScroll : MemoCache IScroll
  memoDims : MemoCache IDimensions
deriving Repr, DecidableEq

/-- `getPropsFromState` from the source: build the public snapshot from the
last-synced copies through the two memoized copy functions. -/
def getPropsFromState (c : CollectorState) : IViewport × CollectorState :=
  let ps := getPublicScroll c.memoScroll c.lastSyncedScrollState
  let pd := getPublicDimensions c.memoDims c.lastSyncedDimensionsState
  (⟨ps.1, pd.1⟩, { c with memoScroll := ps.2, memoDims := pd.2 })

/-- `syncState` from the source: compare raw state against the last-synced
copies by shallow equality, replace the copies of the sides that changed,
and, if anything changed, publish a snapshot through the immediate
`onUpdate` callback (returned as the event list). -/
def syncState (c : CollectorState) : CollectorState × List UpdateEvent :=
  let scrollDidUpdate := !shallowEqualScroll c.lastSyncedScrollState c.scrollState
  let dimensionsDidUpdate :=
    !shallowEqualDimensions c.lastSyncedDimensionsState c.dimensionsState
  let c1 := if scrollDidUpdate
    then { c with lastSyncedScrollState := c.scrollState } else c
  let c2 := if dimensionsDidUpdate
    then { c1 with lastSyncedDimensionsState := c1.dimensionsState } else c1
  if scrollDidUpdate || dimensionsDidUpdate then
    let p := getPropsFromState c2
    (p.2, [⟨p.1, ⟨scrollDidUpdate, dimensionsDidUpdate⟩⟩])
  else (c2, [])

/-- `tick` from the source: one animation frame. If the dirty flag is set,
run `syncState`; in every case clear the dirty flag. The returned list
holds the immediate-callback invocations performed during this frame. -/
def tick (c : CollectorState) : CollectorState × List UpdateEvent :=
  if c.componentMightHaveUpdated then
    let p := syncState c
    ({ p.1 with componentMightHaveUpdated := false }, p.2)
  else ({ c with componentMightHaveUpdated := false }, [])

theorem getPublicScroll_val (m : MemoCache IScroll) (hm : MemoCopyInv m)
    (a : IScroll) : ((getPublicScroll m a).1).val = a :=
  callMemoizedCopy_val shallowEqualScroll
    (fun x y h => (shallowEqualScroll_iff x y).mp h) m hm a

theorem getPublicDimensions_val (m : MemoCache IDimensions)
    (hm : MemoCopyInv m) (a : IDimensions) :
    ((getPublicDimensions m a).1).val = a :=
  callMemoizedCopy_val shallowEqualDimensions
    (fun x y h => (shallowEqualDimensions_iff x y).mp h) m hm a

/-- C8: the memoized copy functions return the identical cached object when
the input is shallow-equal to the previous call's input (and allocate a
fresh copy only when some field differs); consequently, in successive
published snapshots a side whose last-synced content did not change keeps
its previous object reference. -/
theorem claim_C8_reference_stability :
    (∀ (m : MemoCache IScroll) (a1 a2 : IScroll),
      shallowEqualScroll a2 a1 = true →
        getPublicScroll (getPublicScroll m a1).2 a2 =
          ((getPublicScroll m a1).1, (getPublicScroll m a1).2)) ∧
    (∀ (m : MemoCache IDimensions) (a1 a2 : IDimensions),
      shallowEqualDimensions a2 a1 = true →
        getPublicDimensions (getPublicDimensions m a1).2 a2 =
          ((getPublicDimensions m a1).1, (getPublicDimensions m a1).2)) ∧
    (∀ c : CollectorState,
      ((getPropsFromState (getPropsFromState c).2).1).scroll =
        ((getPropsFromState c).1).scroll ∧
      ((getPropsFromState (getPropsFromState c).2).1).dimensions =
        ((getPropsFromState c).1).dimensions) := by
  refine ⟨?_, ?_, ?_⟩
  · intro m a1 a2 h
    exact callMemoizedCopy_second shallowEqualScroll shallowEqualScroll_iff m a1 a2 h
  · intro m a1 a2 h
    exact callMemoizedCopy_second shallowEqualDimensions shallowEqualDimensions_iff
      m a1 a2 h
  · intro c
    have h1 := callMemoizedCopy_second shallowEqualScroll shallowEqualScroll_iff
      c.memoScroll c.lastSyncedScrollState c.lastSyncedScrollState
      ((shallowEqualScroll_iff _ _).mpr rfl)
    have h2 := callMemoizedCopy_second shallowEqualDimensions
      shallowEqualDimensions_iff c.memoDims c.lastSyncedDimensionsState
      c.lastSyncedDimensionsState ((shallowEqualDimensions_iff _ _).mpr rfl)
    exact ⟨congrArg Prod.fst h1, congrArg Prod.fst h2⟩

theorem claim_C8_witness :
    getPublicScroll (getPublicScroll ⟨none, 0⟩ createInitScrollState).2
        createInitScrollState =
      ((getPublicScroll ⟨none, 0⟩ createInitScrollState).1,
        (getPublicScroll ⟨none, 0⟩ createInitScrollState).2) ∧
    getPublicDimensions (getPublicDimensions ⟨none, 0⟩ createEmptyDimensionState).2
        createEmptyDimensionState =
      ((getPublicDimensions ⟨none, 0⟩ createEmptyDimensionState).1,
        (getPublicDimensions ⟨none, 0⟩ createEmptyDimensionState).2) :=
  ⟨claim_C8_reference_stability.1 ⟨none, 0⟩ createInitScrollState
      createInitScrollState (by decide),
    claim_C8_reference_stability.2.1 ⟨none, 0⟩ createEmptyDimensionState
      createEmptyDimensionState (by decide)⟩

/-- C5: during a tick the immediate callback fires iff the dirty flag was
set and at least one of raw scroll or raw dimensions differs by field-wise
shallow comparison from its last-published copy; it fires at most once per
frame; the last-published copy of each side that changed is replaced
before the snapshot is built (so the snapshot shows the new value of every
changed side); and the delivered snapshot is never shallow-equal on both
sides to the previously delivered one. -/
theorem claim_C5_immediate_callback (c : CollectorState)
    (prevScroll : IScroll) (prevDims : IDimensions)
    (hms : MemoCopyInv c.memoScroll) (hmd : MemoCopyInv c.memoDims)
    (hps : shallowEqualScroll prevScroll c.lastSyncedScrollState = true)
    (hpd : shallowEqualDimensions prevDims c.lastSyncedDimensionsState = true) :
    ((tick c).2 ≠ [] ↔
      c.componentMightHaveUpdated = true ∧
        (shallowEqualScroll c.lastSyncedScrollState c.scrollState = false ∨
          shallowEqualDimensions c.lastSyncedDimensionsState c.dimensionsState
            = false)) ∧
    (tick c).2.length ≤ 1 ∧
    (∀ ev ∈ (tick c).2,
      (ev.flags.scrollDidUpdate = true →
        ((tick c).1.lastSyncedScrollState = c.scrollState ∧
          ev.snapshot.scroll.val = c.scrollState)) ∧
      (ev.flags.dimensionsDidUpdate = true →
        ((tick c).1.lastSyncedDimensionsState = c.dimensionsState ∧
          ev.snapshot.dimensions.val = c.dimensionsState)) ∧
      ¬(shallowEqualScroll ev.snapshot.scroll.val prevScroll = true ∧
        shallowEqualDimensions ev.snapshot.dimensions.val prevDims = true)) := by
  have hpseq : prevScroll = c.lastSyncedScrollState :=
    (shallowEqualScroll_iff _ _).mp hps
  have hpdeq : prevDims = c.lastSyncedDimensionsState :=
    (shallowEqualDimensions_iff _ _).mp hpd
  subst hpseq hpdeq
  cases hcm : c.componentMightHaveUpdated with
  | false =>
    have ht : tick c = ({ c with componentMightHaveUpdated := false }, []) := by
      unfold tick
      rw [hcm]
      simp
    rw [ht]
    refine ⟨by simp [hcm], by simp, by simp⟩
  | true =>
    have ht : tick c =
        ({ (syncState c).1 with componentMightHaveUpdated := false },
          (syncState c).2) := by
      unfold tick
      rw [hcm]
      simp
    cases hs : shallowEqualScroll c.lastSyncedScrollState c.scrollState with
    | true =>
      have hseq : c.lastSyncedScrollState = c.scrollState :=
        (shallowEqualScroll_iff _ _).mp hs
      cases hd : shallowEqualDimensions c.lastSyncedDimensionsState
          c.dimensionsState with
      | true =>
        have hsync : syncState c = (c, []) := by
          unfold syncState
          rw [hs, hd]
          rfl
        rw [ht, hsync]
        refine ⟨by simp [hcm, hs, hd], by simp, by simp⟩
      | false =>
        have hsync : syncState c =
            ((getPropsFromState
                { c with lastSyncedDimensionsState := c.dimensionsState }).2,
              [⟨(getPropsFromState
                  { c with lastSyncedDimensionsState := c.dimensionsState }).1,
                ⟨false, true⟩⟩]) := by
          unfold syncState
          rw [hs, hd]
          rfl
        rw [ht, hsync]
        refine ⟨by simp [hcm, hd], by simp, ?_⟩
        intro ev hev
        have hev2 : ev = ⟨(getPropsFromState
            { c with lastSyncedDimensionsState := c.dimensionsState }).1,
            ⟨false, true⟩⟩ := by
          simpa using hev
        subst hev2
        have hvald : ((getPropsFromState
            { c with lastSyncedDimensionsState := c.dimensionsState }).1).dimensions.val
            = c.dimensionsState := by
          show ((getPublicDimensions c.memoDims c.dimensionsState).1).val
            = c.dimensionsState
          exact getPublicDimensions_val c.memoDims hmd c.dimensionsState
        refine ⟨fun h => absurd h (by simp), fun _ => ⟨rfl, hvald⟩, ?_⟩
        rintro ⟨-, h2⟩
        rw [hvald] at h2
        have heq2 : c.dimensionsState = c.lastSyncedDimensionsState :=
          (shallowEqualDimensions_iff _ _).mp h2
        rw [heq2] at hd
        have htrue : shallowEqualDimensions c.lastSyncedDimensionsState
            c.lastSyncedDimensionsState = true :=
          (shallowEqualDimensions_iff _ _).mpr rfl
        rw [htrue] at hd
        exact Bool.noConfusion hd
    | false =>
      cases hd : shallowEqualDimensions c.lastSyncedDimensionsState
          c.dimensionsState with
      | true =>
        have hsync : syncState c =
            ((getPropsFromState
                { c with lastSyncedScrollState := c.scrollState }).2,
              [⟨(getPropsFromState
                  { c with lastSyncedScrollState := c.scrollState }).1,
                ⟨true, false⟩⟩]) := by
          unfold syncState
          rw [hs, hd]
          rfl
        rw [ht, hsync]
        refine ⟨by simp [hcm, hs], by simp, ?_⟩
        intro ev hev
        have hev2 : ev = ⟨(getPropsFromState
            { c with lastSyncedScrollState := c.scrollState }).1,
            ⟨true, false⟩⟩ := by
          simpa using hev
        subst hev2
        have hvals : ((getPropsFromState
            { c with lastSyncedScrollState := c.scrollState }).1).scroll.val
            = c.scrollState := by
          show ((getPublicScroll c.memoScroll c.scrollState).1).val = c.scrollState
          exact getPublicScroll_val c.memoScroll hms c.scrollState
        refine ⟨fun _ => ⟨rfl, hvals⟩, fun h => absurd h (by simp), ?_⟩
        rintro ⟨h1, -⟩
        rw [hvals] at h1
        have heq1 : c.scrollState = c.lastSyncedScrollState :=
          (shallowEqualScroll_iff _ _).mp h1
        rw [heq1] at hs
        have htrue : shallowEqualScroll c.lastSyncedScrollState
            c.lastSyncedScrollState = true :=
          (shallowEqualScroll_iff _ _).mpr rfl
        rw [htrue] at hs
        exact Bool.noConfusion hs
      | false =>
        have hsync : syncState c =
            ((getPropsFromState
                { c with lastSyncedScrollState := c.scrollState, lastSyncedDimensionsState := c.dimensionsState }).2,
              [⟨(getPropsFromState
                  { c with lastSyncedScrollState := c.scrollState, lastSyncedDimensionsState := c.dimensionsState }).1,
                ⟨true, true⟩⟩]) := by
          unfold syncState
          rw [hs, hd]
          rfl
        rw [ht, hsync]
        refine ⟨by simp [hcm, hs], by simp, ?_⟩
        intro ev hev
        have hev2 : ev = ⟨(getPropsFromState
            { c with lastSyncedScrollState := c.scrollState, lastSyncedDimensionsState := c.dimensionsState }).1,
            ⟨true, true⟩⟩ := by
          simpa using hev
        subst hev2
        have hvals : ((getPropsFromState
            { c with lastSyncedScrollState := c.scrollState, lastSyncedDimensionsState := c.dimensionsState }).1).scroll.val
            = c.scrollState := by
          show ((getPublicScroll c.memoScroll c.scrollState).1).val = c.scrollState
          exact getPublicScroll_val c.memoScroll hms c.scrollState
        have hvald : ((getPropsFromState
            { c with lastSyncedScrollState := c.scrollState, lastSyncedDimensionsState := c.dimensionsState }).1).dimensions.val
            = c.dimensionsState := by
          show ((getPublicDimensions c.memoDims c.dimensionsState).1).val
            = c.dimensionsState
          exact getPublicDimensions_val c.memoDims hmd c.dimensionsState
        refine ⟨fun _ => ⟨rfl, hvals⟩, fun _ => ⟨rfl, hvald⟩, ?_⟩
        rintro ⟨h1, -⟩
        rw [hvals] at h1
        have heq1 : c.scrollState = c.lastSyncedScrollState :=
          (shallowEqualScroll_iff _ _).mp h1
        rw [heq1] at hs
        have htrue : shallowEqualScroll c.lastSyncedScrollState
            c.lastSyncedScrollState = true :=
          (shallowEqualScroll_iff _ _).mpr rfl
        rw [htrue] at hs
        exact Bool.noConfusion hs

/-- A dirty collector state one scroll sample after construction, used to
exercise the publication theorem on a concrete input. -/
def tickWitnessState : CollectorState :=
  { scrollState := handleScroll 0 50 createInitScrollState
    dimensionsState := createEmptyDimensionState
    lastSyncedScrollState := createInitScrollState
    lastSyncedDimensionsState := createEmptyDimensionState
    componentMightHaveUpdated := true
    memoScroll := ⟨none, 0⟩
    memoDims := ⟨none, 0⟩ }

theorem claim_C5_witness :
    ((tick tickWitnessState).2 ≠ [] ↔
      tickWitnessState.componentMightHaveUpdated = true ∧
        (shallowEqualScroll tickWitnessState.lastSyncedScrollState
            tickWitnessState.scrollState = false ∨
          shallowEqualDimensions tickWitnessState.lastSyncedDimensionsState
            tickWitnessState.dimensionsState = false)) ∧
    (tick tickWitnessState).2.length ≤ 1 ∧
    (∀ ev ∈ (tick tickWitnessState).2,
      (ev.flags.scrollDidUpdate = true →
        ((tick tickWitnessState).1.lastSyncedScrollState =
            tickWitnessState.scrollState ∧
          ev.snapshot.scroll.val = tickWitnessState.scrollState)) ∧
      (ev.flags.dimensionsDidUpdate = true →
        ((tick tickWitnessState).1.lastSyncedDimensionsState =
            tickWitnessState.dimensionsState ∧
          ev.snapshot.dimensions.val = tickWitnessState.dimensionsState)) ∧
      ¬(shallowEqualScroll ev.snapshot.scroll.val createInitScrollState = true ∧
        shallowEqualDimensions ev.snapshot.dimensions.val
          createEmptyDimensionState = true)) :=
  claim_C5_immediate_callback tickWitnessState createInitScrollState
    createEmptyDimensionState (fun a r h => Option.noConfusion h)
    (fun a r h => Option.noConfusion h) (by decide) (by decide)
